import Mathlib

/-!
Verification development for the ProcessM8 diagram graph engine.

This file shallowly embeds the algorithmic core of the repository:
  * the data model of `src/types.ts` (flow graphs, value-stream graphs,
    case graphs, scope data, dashboard metrics),
  * the conversion module (`jsonToBpmnXml`, `convertVsmToBpmn`,
    `convertSipocToVsm`, `convertSipocToBpmn`),
  * the editor interaction logic of `src/components/VSMEditor.tsx` and
    `src/components/CMMNEditor.tsx` (pan / drag / snap, fit-to-content,
    connector rendering, global listener lifecycle),
  * the dashboard metric derivation (`calculateDynamicMetrics` in the
    application root).

Modelling conventions:
  * JavaScript numbers are modelled as rationals (`ℚ`); `Math.round` is
    `round` (both are floor of x + 1/2), `toFixed(2)` composed with
    `Number(...)` is rounding at two decimal places over `ℚ`.
  * JavaScript's `x || d` on numbers (0 is falsy) is `jsOr` / `jsOrOpt`,
    `x ?? d` is `Option.getD`, `s || d` on strings ("" is falsy) is
    `jsOrStr`.
  * `crypto.randomUUID()` draws from an ambient entropy source; it is made
    explicit as an `IdGen` argument (`ℕ → String`) consumed at successive
    indices, one per call, in the execution order of the calls.
  * Optional TypeScript fields are `Option` fields; records mutated only by
    whole-record replacement become pure functions on immutable values.
-/

namespace ProcessM8

/-- JavaScript `a || b` for numbers: `0` is falsy (NaN is outside the model). -/
def jsOr (a b : ℚ) : ℚ := if a = 0 then b else a

/-- JavaScript `o?.f || b`: `undefined` and `0` both fall back to `b`. -/
def jsOrOpt (o : Option ℚ) (b : ℚ) : ℚ :=
  match o with
  | none => b
  | some v => if v = 0 then b else v

/-- JavaScript `s || d` for strings: the empty string is falsy. -/
def jsOrStr (o : Option String) (d : String) : String :=
  match o with
  | none => d
  | some s => if s = "" then d else s

/-- `Number(q.toFixed(2))`: round to two decimal places. -/
def round2 (q : ℚ) : ℚ := ((round (q * 100) : ℤ) : ℚ) / 100

/-! ## Data model (src/types.ts) -/

/-- `NodeType` enum; the `end` member is rendered `end_` (Lean keyword). -/
inductive NodeType where
  | start
  | task
  | gateway
  | end_
deriving DecidableEq, Repr

/-- The optional `metrics` payload of a `ProcessNode`. -/
structure BpmnMetrics where
  cycleTime : Option ℚ := none
  cost : Option ℚ := none
  errorRate : Option ℚ := none
  waitingTime : Option ℚ := none
  changeoverTime : Option ℚ := none
  uptime : Option ℚ := none
  resourceCost : Option ℚ := none
deriving DecidableEq, Repr

structure ProcessNode where
  id : String
  type : NodeType
  label : String
  x : ℚ
  y : ℚ
  metrics : Option BpmnMetrics := none
deriving DecidableEq, Repr

structure ProcessEdge where
  id : String
  source : String
  target : String
  label : Option String := none
  probability : Option ℚ := none
deriving DecidableEq, Repr

/-- The execution-flow diagram (the `xml` cache field carries no semantics
and is omitted). -/
structure ProcessMap where
  nodes : List ProcessNode
  edges : List ProcessEdge
deriving DecidableEq, Repr

inductive VSMRole where
  | supplier
  | customer
  | process
  | inventory
  | productionControl
  | transport
  | kaizen
deriving DecidableEq, Repr

structure VSMStepData where
  cycleTime : ℚ
  changeoverTime : ℚ
  uptime : ℚ
  inventoryCount : Option ℚ := none
  leadTime : Option ℚ := none
deriving DecidableEq, Repr

/-- A value-stream node.  The TypeScript type declares `data` as required but
the code reads it through `?.` everywhere, so it is `Option` here. -/
structure VSMStep where
  id : String
  name : String
  role : VSMRole
  x : ℚ
  y : ℚ
  data : Option VSMStepData := none
deriving DecidableEq, Repr

inductive VSMConnType where
  | electronic
  | manual
  | push
  | pull
  | transport
deriving DecidableEq, Repr

structure VSMConnector where
  id : String
  source : String
  target : String
  type : VSMConnType
deriving DecidableEq, Repr

/-- Value-stream diagram.  The AI `analysis` annotation is never read or
written by the modelled core and is omitted. -/
structure VSMData where
  steps : List VSMStep
  connectors : List VSMConnector
  totalLeadTime : ℚ
  totalProcessTime : ℚ
  efficiency : ℚ
  customerDemand : Option ℚ := none
  availableTime : Option ℚ := none
deriving DecidableEq, Repr

structure SIPOCData where
  suppliers : List String
  inputs : List String
  process : List String
  outputs : List String
  customers : List String
deriving DecidableEq, Repr

inductive CMMNNodeType where
  | stage
  | task
  | milestone
  | event
deriving DecidableEq, Repr

structure CMMNNode where
  id : String
  type : CMMNNodeType
  label : String
  x : ℚ
  y : ℚ
  width : Option ℚ := none
  height : Option ℚ := none
deriving DecidableEq, Repr

inductive CMMNEdgeType where
  | association
  | dependency
deriving DecidableEq, Repr

structure CMMNEdge where
  id : String
  source : String
  target : String
  type : CMMNEdgeType
deriving DecidableEq, Repr

structure CMMNModel where
  nodes : List CMMNNode
  edges : List CMMNEdge
deriving DecidableEq, Repr

structure MetricData where
  name : String
  value : ℚ
  unit : String
  trend : String
  delta : ℚ
deriving DecidableEq, Repr

/-- A canvas viewport (`viewState` in both SVG editors). -/
structure ViewState where
  x : ℚ
  y : ℚ
  scale : ℚ
deriving DecidableEq, Repr

/-! ## Wire-format bridge (`jsonToBpmnXml` in the conversion module) -/

/-- `getNodeDim`: fixed per-kind bounding boxes (width, height). -/
def getNodeDim : NodeType → ℚ × ℚ
  | NodeType.start => (36, 36)
  | NodeType.end_ => (36, 36)
  | NodeType.gateway => (50, 50)
  | _ => (100, 80)

/-- Replace every occurrence of the single character `c` by the string `r`
(char-level model of `String.replace` with a one-character pattern). -/
def replaceChar (c : Char) (r : List Char) (l : List Char) : List Char :=
  (l.map (fun a => if a = c then r else [a])).flatten

/-- Node-label sanitizer:
`label.replace(/&/g,'&amp;').replace(/</g,'&lt;').replace(/>/g,'&gt;')`.
Note that `"` is NOT escaped here. -/
def escapeNodeLabelChars (l : List Char) : List Char :=
  replaceChar '>' (("&gt;").data)
    (replaceChar '<' (("&lt;").data)
      (replaceChar '&' (("&amp;").data) l))

def escapeNodeLabel (s : String) : String := ⟨escapeNodeLabelChars s.data⟩

/-- Edge-label sanitizer: `label.replace(/"/g, '&quot;')`.
Note that `&`, `<`, `>` are NOT escaped here. -/
def escapeEdgeLabelChars (l : List Char) : List Char :=
  replaceChar '"' (("&quot;").data) l

def escapeEdgeLabel (s : String) : String := ⟨escapeEdgeLabelChars s.data⟩

/-- The sequence-flow elements actually emitted into the process container:
edges whose `source` and `target` both resolve
(`data.nodes.some(n => n.id === edge.source)` etc.). -/
def bpmnEmittedSequenceFlows (d : ProcessMap) : List ProcessEdge :=
  d.edges.filter fun e =>
    (d.nodes.any fun n => n.id == e.source) && (d.nodes.any fun n => n.id == e.target)

/-- Source exit port of the forced left-to-right wire routing: right middle. -/
def bpmnSourcePort (n : ProcessNode) : ℚ × ℚ :=
  (n.x + (getNodeDim n.type).1, n.y + (getNodeDim n.type).2 / 2)

/-- Target entry port of the forced left-to-right wire routing: left middle. -/
def bpmnTargetPort (n : ProcessNode) : ℚ × ℚ :=
  (n.x, n.y + (getNodeDim n.type).2 / 2)

/-- Waypoint list of one emitted `BPMNEdge`: exit right middle, enter left
middle, with a Manhattan corner pair when `|sy - ty| > 10`. -/
def bpmnEdgeWaypoints (s t : ProcessNode) : List (ℚ × ℚ) :=
  let p := bpmnSourcePort s
  let q := bpmnTargetPort t
  let midX := p.1 + (q.1 - p.1) / 2
  [p] ++ (if 10 < |p.2 - q.2| then [(midX, p.2), (midX, q.2)] else []) ++ [q]

/-- The interior waypoints of a path: everything but the first and last. -/
def interiorPoints (l : List (ℚ × ℚ)) : List (ℚ × ℚ) := (l.drop 1).dropLast

/-- The diagram-interchange record emitted for one edge: `none` when either
endpoint fails to resolve (`data.nodes.find(...)`), otherwise the edge id
with its waypoint list. -/
def bpmnDiRecordForEdge (d : ProcessMap) (e : ProcessEdge) :
    Option (String × List (ℚ × ℚ)) :=
  match d.nodes.find? (fun n => n.id == e.source),
        d.nodes.find? (fun n => n.id == e.target) with
  | some s, some t => some (e.id, bpmnEdgeWaypoints s t)
  | _, _ => none

/-- All diagram-interchange edge records of the export. -/
def bpmnDiEdgeRecords (d : ProcessMap) : List (String × List (ℚ × ℚ)) :=
  d.edges.filterMap (bpmnDiRecordForEdge d)

/-! ## Value-Stream → Execution-Flow lift (`convertVsmToBpmn`) -/

/-- Stable ascending insertion by `x`.  `Array.prototype.sort` with the
comparator `(a, b) => a.x - b.x` is the stable ascending sort by `x`, and a
stable sort by a fixed key is unique, so this is the same function. -/
def insertByX (s : VSMStep) : List VSMStep → List VSMStep
  | [] => [s]
  | t :: ts => if s.x ≤ t.x then s :: t :: ts else t :: insertByX s ts

def sortByX : List VSMStep → List VSMStep
  | [] => []
  | s :: ss => insertByX s (sortByX ss)

/-- The process-role steps of a value-stream diagram, sorted by `x`
ascending (`vsm.steps.filter(s => s.role === 'process').sort(...)`). -/
def processStepsSorted (vsm : VSMData) : List VSMStep :=
  sortByX (vsm.steps.filter fun s => decide (s.role = VSMRole.process))

/-- Cycle-time transfer: VSM seconds → BPMN minutes.
`step.data?.cycleTime ? Number((step.data.cycleTime / 60).toFixed(2)) : 0`. -/
def vsmCycleMin (d : Option VSMStepData) : ℚ :=
  match d with
  | none => 0
  | some dd => if dd.cycleTime = 0 then 0 else round2 (dd.cycleTime / 60)

/-- `step.data?.changeoverTime ?? 0`. -/
def vsmChangeoverOf (d : Option VSMStepData) : ℚ :=
  match d with
  | none => 0
  | some dd => dd.changeoverTime

/-- `step.data?.uptime ?? 100`. -/
def vsmUptimeOf (d : Option VSMStepData) : ℚ :=
  match d with
  | none => 100
  | some dd => dd.uptime

/-- The task node built from one VSM process step at horizontal offset `x`. -/
def vsmTaskNode (s : VSMStep) (x : ℚ) : ProcessNode :=
  { id := ("Task_") ++ s.id
    type := NodeType.task
    label := s.name
    x := x
    y := 250
    metrics := some
      { cycleTime := some (vsmCycleMin s.data)
        waitingTime := some 0
        cost := some 0
        changeoverTime := some (vsmChangeoverOf s.data)
        uptime := some (vsmUptimeOf s.data) } }

/-- The sequence edge linking `prev` to `next`. -/
def vsmFlowEdge (prev next : String) : ProcessEdge :=
  { id := (("Flow_") ++ prev ++ ("_")) ++ next, source := prev, target := next }

/-- The `processSteps.forEach` loop of `convertVsmToBpmn`: returns the task
nodes, the linking edges, the id of the last node in the chain, and the
final `xOffset`. -/
def vsmTasksAndFlows : List VSMStep → String → ℚ →
    List ProcessNode × List ProcessEdge × String × ℚ
  | [], prev, x => ([], [], prev, x)
  | s :: rest, prev, x =>
    let nodeId := ("Task_") ++ s.id
    let r := vsmTasksAndFlows rest nodeId (x + 180)
    (vsmTaskNode s x :: r.1, vsmFlowEdge prev nodeId :: r.2.1, r.2.2.1, r.2.2.2)

def vsmStartMetrics : BpmnMetrics :=
  { cycleTime := some 0, waitingTime := some 0, cost := some 0
    changeoverTime := some 0, uptime := some 100 }

/-- `convertVsmToBpmn`: start event at x = 150, the process-role steps
sorted by `x` as tasks from x = 300 with spacing 180, end event, all at
y = 250, chained with sequence flows. -/
def convertVsmToBpmn (vsm : VSMData) : ProcessMap :=
  let startId := "StartEvent_1"
  let startNode : ProcessNode :=
    { id := startId, type := NodeType.start, label := "Process Start"
      x := 150, y := 250, metrics := some vsmStartMetrics }
  let r := vsmTasksAndFlows (processStepsSorted vsm) startId 300
  let endId := "EndEvent_1"
  let endNode : ProcessNode :=
    { id := endId, type := NodeType.end_, label := "Process End"
      x := r.2.2.2, y := 250, metrics := some vsmStartMetrics }
  { nodes := startNode :: r.1 ++ [endNode]
    edges := r.2.1 ++ [vsmFlowEdge r.2.2.1 endId] }

/-! ## Scope → Value-Stream lift (`convertSipocToVsm`) -/

/-- Entropy source standing for `crypto.randomUUID()`: call number `k`
returns `gen k`. -/
def IdGen : Type := ℕ → String

def vsmDefaultStepData : VSMStepData :=
  { cycleTime := 0, changeoverTime := 0, uptime := 100
    inventoryCount := some 0, leadTime := some 0 }

/-- The `processList.forEach` loop of `convertSipocToVsm`: fresh ids are
drawn in call order (step id first, then the connector id when a previous
step exists).  Returns steps, push connectors, next entropy index, final
`x`, and the last process step id. -/
def sipocVsmSteps : List String → IdGen → ℕ → ℚ → Option String →
    List VSMStep × List VSMConnector × ℕ × ℚ × Option String
  | [], _, k, x, prev => ([], [], k, x, prev)
  | pName :: rest, gen, k, x, prev =>
    let pId := gen k
    let step : VSMStep :=
      { id := pId, name := pName, role := VSMRole.process
        x := x, y := 400, data := some vsmDefaultStepData }
    match prev with
    | none =>
      let r := sipocVsmSteps rest gen (k + 1) (x + 200) (some pId)
      (step :: r.1, r.2.1, r.2.2)
    | some pv =>
      let conn : VSMConnector :=
        { id := gen (k + 1), source := pv, target := pId, type := VSMConnType.push }
      let r := sipocVsmSteps rest gen (k + 2) (x + 200) (some pId)
      (step :: r.1, conn :: r.2.1, r.2.2)

/-- `sipoc.process.length > 0 ? sipoc.process : [dflt]`. -/
def processListOr (l : List String) (dflt : String) : List String :=
  match l with
  | [] => [dflt]
  | _ => l

/-- `convertSipocToVsm`: supplier, production control, chained process
steps, customer, with push connectors between consecutive steps and a
transport connector to the customer. -/
def convertSipocToVsm (gen : IdGen) (sipoc : SIPOCData) : VSMData :=
  let supplier : VSMStep :=
    { id := gen 0, name := jsOrStr sipoc.suppliers.head? ("Supplier")
      role := VSMRole.supplier, x := 100, y := 100, data := some vsmDefaultStepData }
  let pc : VSMStep :=
    { id := gen 1, name := "Production Control"
      role := VSMRole.productionControl, x := 450, y := 100
      data := some vsmDefaultStepData }
  let r := sipocVsmSteps (processListOr sipoc.process ("Process Step 1")) gen 2 100 none
  let customerId := gen r.2.2.1
  let customer : VSMStep :=
    { id := customerId, name := jsOrStr sipoc.customers.head? ("Customer")
      role := VSMRole.customer, x := max r.2.2.2.1 800, y := 100
      data := some vsmDefaultStepData }
  let lastConns : List VSMConnector :=
    match r.2.2.2.2 with
    | none => []
    | some pv =>
      [{ id := gen (r.2.2.1 + 1), source := pv, target := customerId
         type := VSMConnType.transport }]
  { steps := supplier :: pc :: r.1 ++ [customer]
    connectors := r.2.1 ++ lastConns
    totalLeadTime := 0, totalProcessTime := 0, efficiency := 0
    customerDemand := some 100, availableTime := some 27000 }

/-! ## Scope → Execution-Flow lift (`convertSipocToBpmn`) -/

def sipocNodeMetrics : BpmnMetrics := { cycleTime := some 0, waitingTime := some 0 }

/-- The `processList.forEach` loop of `convertSipocToBpmn`: task ids are
`Task_` plus the first five characters of a fresh uuid. -/
def sipocBpmnTasks : List String → IdGen → ℕ → ℚ → String →
    List ProcessNode × List ProcessEdge × ℕ × ℚ × String
  | [], _, k, x, prev => ([], [], k, x, prev)
  | pName :: rest, gen, k, x, prev =>
    let tId := ("Task_") ++ (gen k).take 5
    let node : ProcessNode :=
      { id := tId, type := NodeType.task, label := pName
        x := x, y := 250, metrics := some sipocNodeMetrics }
    let edge : ProcessEdge :=
      { id := (("Flow_") ++ prev ++ ("_")) ++ tId
        source := prev, target := tId, label := some "" }
    let r := sipocBpmnTasks rest gen (k + 1) (x + 180) tId
    (node :: r.1, edge :: r.2.1, r.2.2)

/-- `convertSipocToBpmn`: start labelled from the first input, one task per
process step (or one placeholder), end labelled from the first output,
linear chain. -/
def convertSipocToBpmn (gen : IdGen) (sipoc : SIPOCData) : ProcessMap :=
  let startId := "StartEvent_SIPOC"
  let startNode : ProcessNode :=
    { id := startId, type := NodeType.start
      label := match sipoc.inputs with
        | [] => "Start"
        | i :: _ => ("Input: ") ++ i
      x := 150, y := 250, metrics := some sipocNodeMetrics }
  let r := sipocBpmnTasks (processListOr sipoc.process ("New Task")) gen 0 330 startId
  let endId := "EndEvent_SIPOC"
  let endNode : ProcessNode :=
    { id := endId, type := NodeType.end_
      label := match sipoc.outputs with
        | [] => "End"
        | o :: _ => ("Output: ") ++ o
      x := r.2.2.2.1, y := 250, metrics := some sipocNodeMetrics }
  { nodes := startNode :: r.1 ++ [endNode]
    edges := r.2.1 ++ [{ id := (("Flow_") ++ r.2.2.2.2 ++ ("_")) ++ endId
                         source := r.2.2.2.2, target := endId, label := some "" }] }

/-! ## Id-erasing projections (determinism up to fresh ids) -/

/-- Everything about a VSM step except its generated id. -/
def vsmStepShape (s : VSMStep) : String × VSMRole × ℚ × ℚ × Option VSMStepData :=
  (s.name, s.role, s.x, s.y, s.data)

/-- Everything about a VSM diagram except generated identifiers. -/
def vsmShape (v : VSMData) :
    List (String × VSMRole × ℚ × ℚ × Option VSMStepData) × List VSMConnType ×
      ℚ × ℚ × ℚ × Option ℚ × Option ℚ :=
  (v.steps.map vsmStepShape, v.connectors.map (fun c => c.type),
   v.totalLeadTime, v.totalProcessTime, v.efficiency,
   v.customerDemand, v.availableTime)

/-- Everything about a flow node except its generated id. -/
def bpmnNodeShape (n : ProcessNode) : NodeType × String × ℚ × ℚ × Option BpmnMetrics :=
  (n.type, n.label, n.x, n.y, n.metrics)

/-- Everything about a flow diagram except generated identifiers. -/
def bpmnShape (d : ProcessMap) :
    List (NodeType × String × ℚ × ℚ × Option BpmnMetrics) × List (Option String) :=
  (d.nodes.map bpmnNodeShape, d.edges.map (fun e => e.label))

/-! ## VSM editor interaction (src/components/VSMEditor.tsx) -/

/-- The editor-local state that the pointer handlers read and write.  The
diagram (`data.steps`) is included because `onUpdate` replaces it. -/
structure VSMEditorState where
  viewState : ViewState
  isPanning : Bool
  lastMousePos : ℚ × ℚ
  draggedStepId : Option String
  dragOffset : ℚ × ℚ
  steps : List VSMStep
deriving DecidableEq, Repr

/-- `toLocalCoordinates`: screen → model transform.  `rectLeft`/`rectTop`
are the SVG bounding-rect origin (the element is assumed mounted). -/
def toLocalCoordinates (rectLeft rectTop : ℚ) (vs : ViewState)
    (clientX clientY : ℚ) : ℚ × ℚ :=
  ((clientX - rectLeft - vs.x) / vs.scale, (clientY - rectTop - vs.y) / vs.scale)

/-- `GRID_SIZE = 10` snapping: `Math.round(v / GRID_SIZE) * GRID_SIZE`. -/
def snapToGrid (v : ℚ) : ℚ := ((round (v / 10) : ℤ) : ℚ) * 10

/-- `handleMouseMove` of the VSM editor: pan accumulation while panning,
otherwise grid-snapped node placement while a node is being dragged. -/
def vsmHandleMouseMove (rectLeft rectTop clientX clientY : ℚ)
    (st : VSMEditorState) : VSMEditorState :=
  if st.isPanning then
    { st with
      viewState :=
        { st.viewState with
          x := st.viewState.x + (clientX - st.lastMousePos.1)
          y := st.viewState.y + (clientY - st.lastMousePos.2) }
      lastMousePos := (clientX, clientY) }
  else
    match st.draggedStepId with
    | some dragId =>
      let localPt := toLocalCoordinates rectLeft rectTop st.viewState clientX clientY
      let snappedX := snapToGrid (localPt.1 - st.dragOffset.1)
      let snappedY := snapToGrid (localPt.2 - st.dragOffset.2)
      { st with
        steps := st.steps.map fun s =>
          if s.id = dragId then { s with x := snappedX, y := snappedY } else s }
    | none => st

/-- `handleMouseUp` of the VSM editor: end the gesture. -/
def vsmHandleMouseUp (st : VSMEditorState) : VSMEditorState :=
  { st with isPanning := false, draggedStepId := none }

/-- `handleFitView` of the VSM editor.  With zero steps it resets to the
identity viewport; otherwise it fits the bounding box (the container is
assumed mounted, with client size `clientW × clientH`). -/
def vsmHandleFitView (steps : List VSMStep) (clientW clientH : ℚ) : ViewState :=
  match steps with
  | [] => { x := 0, y := 0, scale := 1 }
  | s :: rest =>
    let xs := (s :: rest).map (fun t => t.x)
    let ys := (s :: rest).map (fun t => t.y)
    let minX := xs.foldr min s.x
    let maxX := xs.foldr max s.x
    let minY := ys.foldr min s.y
    let maxY := (ys.foldr max s.y) ⊔ (600 + 100)
    let width := maxX - minX + 200
    let height := maxY - minY + 200
    let scaleX := clientW / (width + 50 * 2)
    let scaleY := clientH / (height + 50 * 2)
    let scale := min (min scaleX scaleY) 1
    { x := (clientW - width * scale) / 2 - minX * scale + 50
      y := (clientH - height * scale) / 2 - minY * scale + 50
      scale := scale }

/-- `getSnapRect`: per-role center position and extents of a VSM shape. -/
def getSnapRect (step : VSMStep) : ℚ × ℚ × ℚ × ℚ :=
  let wh : ℚ × ℚ :=
    match step.role with
    | VSMRole.process => (120, 60)
    | VSMRole.supplier => (90, 45)
    | VSMRole.customer => (90, 45)
    | VSMRole.productionControl => (120, 40)
    | VSMRole.inventory => (30, 30)
    | VSMRole.kaizen => (50, 50)
    | VSMRole.transport => (40, 40)
  (step.x, step.y, wh.1, wh.2)

/-- `getConnectorPoints`: dominant-axis port selection between two VSM
shapes, returning `(x1, y1, x2, y2)`. -/
def getConnectorPoints (source target : VSMStep) : ℚ × ℚ × ℚ × ℚ :=
  let sRect := getSnapRect source
  let tRect := getSnapRect target
  let dx := tRect.1 - sRect.1
  let dy := tRect.2.1 - sRect.2.1
  let s : ℚ × ℚ :=
    if |dy| < |dx| then
      (if 0 < dx then sRect.1 + sRect.2.2.1 / 2 else sRect.1 - sRect.2.2.1 / 2, sRect.2.1)
    else
      (sRect.1, if 0 < dy then sRect.2.1 + sRect.2.2.2 / 2 else sRect.2.1 - sRect.2.2.2 / 2)
  let t : ℚ × ℚ :=
    if |dy| < |dx| then
      (if 0 < dx then tRect.1 - tRect.2.2.1 / 2 else tRect.1 + tRect.2.2.1 / 2, tRect.2.1)
    else
      (tRect.1, if 0 < dy then tRect.2.1 - tRect.2.2.2 / 2 else tRect.2.1 + tRect.2.2.2 / 2)
  (s.1, s.2, t.1, t.2)

/-- `renderConnector`: `null` (no connector drawn) when either endpoint of
the connector fails to resolve, otherwise the connector's endpoints. -/
def vsmRenderedConnector (v : VSMData) (c : VSMConnector) :
    Option (ℚ × ℚ × ℚ × ℚ) :=
  match v.steps.find? (fun s => s.id == c.source),
        v.steps.find? (fun s => s.id == c.target) with
  | some s, some t => some (getConnectorPoints s t)
  | _, _ => none

/-! ## CMMN editor interaction (src/components/CMMNEditor.tsx) -/

structure CMMNEditorState where
  viewState : ViewState
  isPanning : Bool
  lastMousePos : ℚ × ℚ
  draggedNodeId : Option String
  dragOffset : ℚ × ℚ
  nodes : List CMMNNode
deriving DecidableEq, Repr

/-- `handleMouseMove` of the CMMN editor (same structure as the VSM one). -/
def cmmnHandleMouseMove (rectLeft rectTop clientX clientY : ℚ)
    (st : CMMNEditorState) : CMMNEditorState :=
  if st.isPanning then
    { st with
      viewState :=
        { st.viewState with
          x := st.viewState.x + (clientX - st.lastMousePos.1)
          y := st.viewState.y + (clientY - st.lastMousePos.2) }
      lastMousePos := (clientX, clientY) }
  else
    match st.draggedNodeId with
    | some dragId =>
      let localPt := toLocalCoordinates rectLeft rectTop st.viewState clientX clientY
      let snappedX := snapToGrid (localPt.1 - st.dragOffset.1)
      let snappedY := snapToGrid (localPt.2 - st.dragOffset.2)
      { st with
        nodes := st.nodes.map fun n =>
          if n.id = dragId then { n with x := snappedX, y := snappedY } else n }
    | none => st

def cmmnHandleMouseUp (st : CMMNEditorState) : CMMNEditorState :=
  { st with isPanning := false, draggedNodeId := none }

/-- `handleFitView` of the CMMN editor.  With zero nodes it RETURNS EARLY,
leaving the viewport unchanged (`if (!data.nodes.length || ...) return`). -/
def cmmnHandleFitView (nodes : List CMMNNode) (clientW clientH : ℚ)
    (vp : ViewState) : ViewState :=
  match nodes with
  | [] => vp
  | n :: rest =>
    let all := n :: rest
    let minX := (all.map (fun m => m.x)).foldr min n.x
    let maxX := (all.map (fun m => m.x + jsOrOpt m.width 120)).foldr max (n.x + jsOrOpt n.width 120)
    let minY := (all.map (fun m => m.y)).foldr min n.y
    let maxY := (all.map (fun m => m.y + jsOrOpt m.height 60)).foldr max (n.y + jsOrOpt n.height 60)
    let width := maxX - minX
    let height := maxY - minY
    let scale := min (min (clientW / (width + 200)) (clientH / (height + 200))) 1
    { x := (clientW - width * scale) / 2 - minX * scale
      y := (clientH - height * scale) / 2 - minY * scale
      scale := scale }

/-- Edge rendering of the CMMN editor: `null` when an endpoint is missing,
otherwise the center-to-center segment (with `width || 0` fallbacks). -/
def cmmnRenderedEdge (m : CMMNModel) (e : CMMNEdge) : Option (ℚ × ℚ × ℚ × ℚ) :=
  match m.nodes.find? (fun n => n.id == e.source),
        m.nodes.find? (fun n => n.id == e.target) with
  | some s, some t =>
    some (s.x + jsOrOpt s.width 0 / 2, s.y + jsOrOpt s.height 0 / 2,
          t.x + jsOrOpt t.width 0 / 2, t.y + jsOrOpt t.height 0 / 2)
  | _, _ => none

/-! ## Global pointer-listener lifecycle -/

/-- The states of the pointer-interaction state machine. -/
inductive InteractionPhase where
  | idle
  | panning
  | dragging
  | connecting
deriving DecidableEq, Repr

/-- The phase the VSM editor state is in. -/
def vsmEditorPhase (st : VSMEditorState) : InteractionPhase :=
  if st.isPanning then InteractionPhase.panning
  else if st.draggedStepId.isSome then InteractionPhase.dragging
  else InteractionPhase.idle

def cmmnEditorPhase (st : CMMNEditorState) : InteractionPhase :=
  if st.isPanning then InteractionPhase.panning
  else if st.draggedNodeId.isSome then InteractionPhase.dragging
  else InteractionPhase.idle

/-- Whether the window-level mousemove/mouseup listeners of the VSM editor
are attached.  The `useEffect` attaching them has no condition on the
interaction state: it runs on every commit while the component is mounted
and its cleanup (which removes the listeners) runs on unmount, so the
listeners are attached exactly while the editor is mounted, in every
interaction phase. -/
def vsmGlobalListenersAttached (mounted : Bool) (_st : VSMEditorState) : Bool :=
  mounted

/-- Same lifecycle for the CMMN editor's window-level listeners. -/
def cmmnGlobalListenersAttached (mounted : Bool) (_st : CMMNEditorState) : Bool :=
  mounted

/-- Modelled from the spec: listeners "are attached only while in `Panning`
or `DraggingNode` and are detached the moment the gesture ends". -/
def listenersAttachedSpecModel (mounted : Bool) (ph : InteractionPhase) : Bool :=
  mounted && (ph == InteractionPhase.panning || ph == InteractionPhase.dragging)

/-! ## Dashboard metric derivation (`calculateDynamicMetrics`) -/

/-- The slice of `ProjectData` that `calculateDynamicMetrics` reads. -/
structure DashboardData where
  vsm : Option VSMData
  processMap : Option ProcessMap
deriving DecidableEq, Repr

def mkMetric (n : String) (v : ℚ) (u : String) : MetricData :=
  { name := n, value := v, unit := u, trend := "stable", delta := 0 }

/-- The clamped takt ratio: `Math.min(1.2, (cycle * 60) / (takt || 1))`. -/
def clampedTaktQuot (cycle takt : ℚ) : ℚ :=
  min (1.2 : ℚ) (cycle * 60 / jsOr takt 1)

/-- The unclamped weighted blend:
`(eff * 0.4) + (100 * (1 / (taktRatio || 1)) * 0.6)`. -/
def unclampedHealth (eff cycle takt : ℚ) : ℚ :=
  eff * 0.4 + 100 * (1 / jsOr (clampedTaktQuot cycle takt) 1) * 0.6

/-- `Math.min(100, Math.round(...))`: the stored Process Health score. -/
def healthValue (eff cycle takt : ℚ) : ℚ :=
  ((min 100 (round (unclampedHealth eff cycle takt)) : ℤ) : ℚ)

/-- The metrics pushed before the health score is prepended. -/
def baseMetrics (d : DashboardData) : List MetricData :=
  (match d.vsm with
   | some v =>
     if v.steps = [] then []
     else
       [mkMetric ("Lead Time") v.totalLeadTime ("days"),
        mkMetric ("Flow Efficiency") (jsOr v.efficiency 0) ("%")] ++
       (match v.customerDemand, v.availableTime with
        | some cd, some av =>
          if cd = 0 ∨ av = 0 then []
          else [mkMetric ("Takt Time") ((round (av / cd) : ℤ) : ℚ) ("s")]
        | _, _ => [])
   | none => []) ++
  (match d.processMap with
   | some pm =>
     if pm.nodes = [] then []
     else
       [mkMetric ("Designed Cycle Time")
          (pm.nodes.foldl (fun acc n => acc + jsOrOpt (n.metrics.bind (fun m => m.cycleTime)) 0) 0)
          ("min"),
        mkMetric ("Operating Cost")
          (pm.nodes.foldl
            (fun acc n =>
              acc + jsOrOpt (n.metrics.bind (fun m => m.resourceCost)) 0
                  + jsOrOpt (n.metrics.bind (fun m => m.cost)) 0)
            0)
          ("USD")]
   | none => [])

/-- The Process Health metric computed from the already-pushed metrics. -/
def healthMetric (ms : List MetricData) : MetricData :=
  let eff := jsOrOpt ((ms.find? (fun m => m.name == "Flow Efficiency")).map (fun m => m.value)) 50
  let cycle := jsOrOpt ((ms.find? (fun m => m.name == "Designed Cycle Time")).map (fun m => m.value)) 100
  let takt := jsOrOpt ((ms.find? (fun m => m.name == "Takt Time")).map (fun m => m.value)) 100
  mkMetric ("Process Health") (healthValue eff cycle takt) ("Score")

/-- `calculateDynamicMetrics`: the derived dashboard metrics; the Process
Health score is prepended when at least two metrics exist. -/
def calculateDynamicMetrics (d : DashboardData) : List MetricData :=
  let ms := baseMetrics d
  if 2 ≤ ms.length then healthMetric ms :: ms else ms

/-! ## Lemmas about the Value-Stream → Execution-Flow lift -/

/-- The id given to the task generated from a VSM process step. -/
def taskIdOf (s : VSMStep) : String := ("Task_") ++ s.id

theorem mem_insertByX {a s : VSMStep} {l : List VSMStep} :
    a ∈ insertByX s l ↔ a = s ∨ a ∈ l := by
  induction l with
  | nil => simp [insertByX]
  | cons t ts ih =>
    by_cases h : s.x ≤ t.x
    · simp [insertByX, h]
    · simp only [insertByX, if_neg h, List.mem_cons, ih]
      tauto

theorem length_insertByX (s : VSMStep) (l : List VSMStep) :
    (insertByX s l).length = l.length + 1 := by
  induction l with
  | nil => rfl
  | cons t ts ih =>
    by_cases h : s.x ≤ t.x
    · simp [insertByX, h]
    · simp [insertByX, h, ih]

theorem length_sortByX (l : List VSMStep) : (sortByX l).length = l.length := by
  induction l with
  | nil => rfl
  | cons s ss ih => simp [sortByX, length_insertByX, ih]

theorem pairwise_insertByX {s : VSMStep} {l : List VSMStep}
    (h : l.Pairwise (fun a b => a.x ≤ b.x)) :
    (insertByX s l).Pairwise (fun a b => a.x ≤ b.x) := by
  induction l with
  | nil => simp [insertByX]
  | cons t ts ih =>
    rcases List.pairwise_cons.mp h with ⟨ht, hts⟩
    by_cases hx : s.x ≤ t.x
    · simp only [insertByX, if_pos hx]
      refine List.pairwise_cons.mpr ⟨?_, h⟩
      intro b hb
      rcases List.mem_cons.mp hb with hb | hb
      · exact hb ▸ hx
      · exact le_trans hx (ht b hb)
    · simp only [insertByX, if_neg hx]
      refine List.pairwise_cons.mpr ⟨?_, ih hts⟩
      intro b hb
      rcases mem_insertByX.mp hb with hb | hb
      · exact hb ▸ le_of_not_le hx
      · exact ht b hb

theorem pairwise_sortByX (l : List VSMStep) :
    (sortByX l).Pairwise (fun a b => a.x ≤ b.x) := by
  induction l with
  | nil => simp [sortByX]
  | cons s ss ih => exact pairwise_insertByX ih

theorem vtf_nodes_map_id (l : List VSMStep) (prev : String) (x : ℚ) :
    (vsmTasksAndFlows l prev x).1.map (fun n => n.id) = l.map taskIdOf := by
  induction l generalizing prev x with
  | nil => rfl
  | cons s rest ih => simp [vsmTasksAndFlows, vsmTaskNode, taskIdOf, ih]

theorem vtf_nodes_map_type (l : List VSMStep) (prev : String) (x : ℚ) :
    (vsmTasksAndFlows l prev x).1.map (fun n => n.type)
      = List.replicate l.length NodeType.task := by
  induction l generalizing prev x with
  | nil => rfl
  | cons s rest ih =>
    simp [vsmTasksAndFlows, vsmTaskNode, ih, List.replicate_succ]

theorem vtf_nodes_length (l : List VSMStep) (prev : String) (x : ℚ) :
    (vsmTasksAndFlows l prev x).1.length = l.length := by
  have h := vtf_nodes_map_id l prev x
  have h1 := congrArg List.length h
  simpa using h1

theorem vtf_edges_map_pair (l : List VSMStep) (prev : String) (x : ℚ) :
    (vsmTasksAndFlows l prev x).2.1.map (fun e => (e.source, e.target))
      = (prev :: l.map taskIdOf).zip (l.map taskIdOf) := by
  induction l generalizing prev x with
  | nil => rfl
  | cons s rest ih => simp [vsmTasksAndFlows, vsmFlowEdge, taskIdOf, ih]

theorem vtf_edges_length (l : List VSMStep) (prev : String) (x : ℚ) :
    (vsmTasksAndFlows l prev x).2.1.length = l.length := by
  have h1 := congrArg List.length (vtf_edges_map_pair l prev x)
  simpa using h1

theorem vtf_lastId (l : List VSMStep) (prev : String) (x : ℚ) :
    (vsmTasksAndFlows l prev x).2.2.1 = (l.map taskIdOf).getLastD prev := by
  induction l generalizing prev x with
  | nil => rfl
  | cons s rest ih =>
    simp only [vsmTasksAndFlows, ih, List.map_cons, List.getLastD_cons]
    rfl

theorem vtf_get (l : List VSMStep) (prev : String) (x : ℚ) (i : ℕ) :
    (vsmTasksAndFlows l prev x).1[i]?
      = (l[i]?).map (fun s => vsmTaskNode s (x + 180 * i)) := by
  induction l generalizing prev x i with
  | nil => simp [vsmTasksAndFlows]
  | cons s rest ih =>
    cases i with
    | zero => simp [vsmTasksAndFlows]
    | succ j =>
      have h := ih (("Task_") ++ s.id) (x + 180) j
      have hx : x + 180 + 180 * (j : ℚ) = x + 180 * ((j : ℚ) + 1) := by ring
      simp only [vsmTasksAndFlows, List.getElem?_cons_succ, h, Nat.cast_succ, hx]

/-- Gluing the per-step chain with the final edge into one consecutive zip. -/
theorem zip_chain (ids : List String) (a z : String) :
    ((a :: ids).zip ids) ++ [(ids.getLastD a, z)]
      = ((a :: ids) ++ [z]).zip (ids ++ [z]) := by
  induction ids generalizing a with
  | nil => rfl
  | cons b t ih =>
    simp only [List.zip_cons_cons, List.getLastD_cons, List.cons_append]
    exact congrArg _ (ih b)

theorem processStepsSorted_length (vsm : VSMData) :
    (processStepsSorted vsm).length
      = (vsm.steps.filter fun s => decide (s.role = VSMRole.process)).length := by
  simp [processStepsSorted, length_sortByX]

theorem vsmCycleMin_some (d : VSMStepData) :
    vsmCycleMin (some d) = round2 (d.cycleTime / 60) := by
  by_cases h : d.cycleTime = 0
  · simp [vsmCycleMin, h, round2]
  · simp [vsmCycleMin, h]

/-! ## Lemmas about the SIPOC lifts (determinism up to fresh ids) -/

theorem sipocVsmSteps_shape (l : List String) (g1 g2 : IdGen) (k1 k2 : ℕ)
    (x : ℚ) (p1 p2 : Option String) (hp : p1.isSome = p2.isSome) :
    (sipocVsmSteps l g1 k1 x p1).1.map vsmStepShape
        = (sipocVsmSteps l g2 k2 x p2).1.map vsmStepShape ∧
    (sipocVsmSteps l g1 k1 x p1).2.1.map (fun c => c.type)
        = (sipocVsmSteps l g2 k2 x p2).2.1.map (fun c => c.type) ∧
    (sipocVsmSteps l g1 k1 x p1).2.2.2.1 = (sipocVsmSteps l g2 k2 x p2).2.2.2.1 ∧
    (sipocVsmSteps l g1 k1 x p1).2.2.2.2.isSome
        = (sipocVsmSteps l g2 k2 x p2).2.2.2.2.isSome := by
  induction l generalizing k1 k2 x p1 p2 with
  | nil => exact ⟨rfl, rfl, rfl, hp⟩
  | cons pName rest ih =>
    cases p1 with
    | none =>
      cases p2 with
      | none =>
        have h := ih (k1 + 1) (k2 + 1) (x + 200) (some (g1 k1)) (some (g2 k2)) rfl
        simp [sipocVsmSteps, vsmStepShape, h.1, h.2.1, h.2.2.1, h.2.2.2]
      | some pv2 => simp at hp
    | some pv1 =>
      cases p2 with
      | none => simp at hp
      | some pv2 =>
        have h := ih (k1 + 2) (k2 + 2) (x + 200) (some (g1 k1)) (some (g2 k2)) rfl
        simp [sipocVsmSteps, vsmStepShape, h.1, h.2.1, h.2.2.1, h.2.2.2]

theorem sipocBpmnTasks_shape (l : List String) (g1 g2 : IdGen) (k1 k2 : ℕ)
    (x : ℚ) (p1 p2 : String) :
    (sipocBpmnTasks l g1 k1 x p1).1.map bpmnNodeShape
        = (sipocBpmnTasks l g2 k2 x p2).1.map bpmnNodeShape ∧
    (sipocBpmnTasks l g1 k1 x p1).2.1.map (fun e => e.label)
        = (sipocBpmnTasks l g2 k2 x p2).2.1.map (fun e => e.label) ∧
    (sipocBpmnTasks l g1 k1 x p1).2.2.2.1 = (sipocBpmnTasks l g2 k2 x p2).2.2.2.1 := by
  induction l generalizing k1 k2 x p1 p2 with
  | nil => exact ⟨rfl, rfl, rfl⟩
  | cons pName rest ih =>
    have h := ih (k1 + 1) (k2 + 1) (x + 180) (("Task_") ++ (g1 k1).take 5)
      (("Task_") ++ (g2 k2).take 5)
    simp [sipocBpmnTasks, bpmnNodeShape, h.1, h.2.1, h.2.2]

/-! ## Concrete fixtures used by counterexamples and witnesses -/

def cexGen1 : IdGen := fun _ => "aaaaa"

def cexGen2 : IdGen := fun _ => "bbbbb"

def cexSipoc : SIPOCData :=
  { suppliers := ["Sup"], inputs := ["Order"], process := ["P1", "P2"]
    outputs := ["Out"], customers := ["Cust"] }

/-- A value-stream fixture: two process steps listed out of x-order plus a
supplier, with metric payloads. -/
def cexVsm : VSMData :=
  { steps :=
      [{ id := "b", name := "B", role := VSMRole.process, x := 500, y := 0
         data := some { cycleTime := 90, changeoverTime := 3, uptime := 95 } },
       { id := "sup", name := "S", role := VSMRole.supplier, x := 0, y := 0 },
       { id := "a", name := "A", role := VSMRole.process, x := 100, y := 0
         data := some { cycleTime := 100, changeoverTime := 2, uptime := 90 } }]
    connectors := [], totalLeadTime := 0, totalProcessTime := 0, efficiency := 0 }

/-! ## Claim theorems C1 – C4 -/

/-- C1: for a value-stream diagram with `k` process-role nodes, the lift
`convertVsmToBpmn` returns `k + 2` nodes (start, the `k` tasks, end) and
`k + 1` edges pairing consecutive node ids (one linear chain from the start
node through the tasks, taken in ascending order of their x position, to
the end node). -/
theorem claim_C1 (vsm : VSMData) :
    (convertVsmToBpmn vsm).nodes.length
        = (vsm.steps.filter fun s => decide (s.role = VSMRole.process)).length + 2 ∧
    (convertVsmToBpmn vsm).edges.length
        = (vsm.steps.filter fun s => decide (s.role = VSMRole.process)).length + 1 ∧
    (convertVsmToBpmn vsm).nodes.map (fun n => n.id)
        = ("StartEvent_1") :: (processStepsSorted vsm).map taskIdOf ++ [("EndEvent_1")] ∧
    (convertVsmToBpmn vsm).nodes.map (fun n => n.type)
        = NodeType.start ::
            List.replicate (processStepsSorted vsm).length NodeType.task ++ [NodeType.end_] ∧
    (convertVsmToBpmn vsm).edges.map (fun e => (e.source, e.target))
        = ((convertVsmToBpmn vsm).nodes.map (fun n => n.id)).zip
            (((convertVsmToBpmn vsm).nodes.map (fun n => n.id)).tail) ∧
    (processStepsSorted vsm).Pairwise (fun a b => a.x ≤ b.x) := by
  refine ⟨?_, ?_, ?_, ?_, ?_, ?_⟩
  · simp [convertVsmToBpmn, vtf_nodes_length, processStepsSorted, length_sortByX]
  · simp [convertVsmToBpmn, vtf_edges_length, processStepsSorted, length_sortByX]
  · simp [convertVsmToBpmn, vtf_nodes_map_id]
  · simp [convertVsmToBpmn, vtf_nodes_map_type]
  · simp only [convertVsmToBpmn, List.map_append, List.map_cons, List.map_nil,
      vtf_nodes_map_id, vtf_edges_map_pair, vtf_lastId, vsmFlowEdge, List.tail_cons]
    exact zip_chain ((processStepsSorted vsm).map taskIdOf) ("StartEvent_1") ("EndEvent_1")
  · exact pairwise_sortByX _

/-- C3: the task generated from the i-th sorted process step carries
cycle time = step cycle time / 60 rounded to two decimals, and the step's
changeover time and uptime unchanged. -/
theorem claim_C3 (vsm : VSMData) (i : ℕ) (s : VSMStep) (d : VSMStepData)
    (hs : (processStepsSorted vsm)[i]? = some s) (hd : s.data = some d) :
    ∃ n : ProcessNode,
      (convertVsmToBpmn vsm).nodes[i + 1]? = some n ∧
      n.type = NodeType.task ∧
      n.label = s.name ∧
      n.metrics = some
        { cycleTime := some (round2 (d.cycleTime / 60))
          waitingTime := some 0
          cost := some 0
          changeoverTime := some d.changeoverTime
          uptime := some d.uptime } := by
  have hlen : i < (processStepsSorted vsm).length := by
    exact List.getElem?_eq_some_iff.mp hs |>.1
  refine ⟨vsmTaskNode s (300 + 180 * i), ?_, rfl, rfl, ?_⟩
  · have hget := vtf_get (processStepsSorted vsm) ("StartEvent_1") 300 i
    have hlt : i < (vsmTasksAndFlows (processStepsSorted vsm) ("StartEvent_1") 300).1.length := by
      rw [vtf_nodes_length]; exact hlen
    simp only [convertVsmToBpmn]
    rw [List.getElem?_append_left (by simp only [List.length_cons, vtf_nodes_length]; omega),
      List.getElem?_cons_succ, hget, hs]
    rfl
  · simp [vsmTaskNode, vsmCycleMin_some, hd, vsmChangeoverOf, vsmUptimeOf]

/-- C3 witness: the first sorted process step of the fixture (id "a",
cycle time 100 s) becomes a task with cycle time 1.67 min, changeover 2,
uptime 90. -/
theorem claim_C3_witness :
    ∃ n : ProcessNode,
      (convertVsmToBpmn cexVsm).nodes[1]? = some n ∧
      n.type = NodeType.task ∧
      n.label = "A" ∧
      n.metrics = some
        { cycleTime := some (round2 ((100 : ℚ) / 60))
          waitingTime := some 0
          cost := some 0
          changeoverTime := some 2
          uptime := some 90 } :=
  claim_C3 cexVsm 0
    { id := "a", name := "A", role := VSMRole.process, x := 100, y := 0
      data := some { cycleTime := 100, changeoverTime := 2, uptime := 90 } }
    { cycleTime := 100, changeoverTime := 2, uptime := 90 }
    (by decide) (by decide)

/-- C4 counterexample: the Scope → Value-Stream and Scope → Execution-Flow
lifts call `crypto.randomUUID()` for node/connector ids, so two invocations
on the same scope diagram with different entropy yield different diagrams
(the ids differ); the output is not a function of the source diagram alone. -/
theorem claim_C4_counterexample :
    convertSipocToVsm cexGen1 cexSipoc ≠ convertSipocToVsm cexGen2 cexSipoc ∧
    convertSipocToBpmn cexGen1 cexSipoc ≠ convertSipocToBpmn cexGen2 cexSipoc := by
  constructor <;> decide

/-- C4 as amended: all three lifts are deterministic, stateless functions
of the source diagram and the fresh-id entropy; everything except the
freshly generated identifiers (node count, names/labels, roles/types,
positions, metric payloads, connector/edge kinds and labels) is a function
of the source diagram alone, and the Value-Stream → Execution-Flow lift
consumes no entropy at all — even its node ids are determined by the
source.  None of the lifts reads any interaction-controller state (their
arguments are only the source diagram and the entropy). -/
theorem claim_C4 (g1 g2 : IdGen) (sipoc : SIPOCData) (vsm : VSMData) :
    vsmShape (convertSipocToVsm g1 sipoc) = vsmShape (convertSipocToVsm g2 sipoc) ∧
    bpmnShape (convertSipocToBpmn g1 sipoc) = bpmnShape (convertSipocToBpmn g2 sipoc) ∧
    (convertVsmToBpmn vsm).nodes.map (fun n => n.id)
        = ("StartEvent_1") :: (processStepsSorted vsm).map taskIdOf ++ [("EndEvent_1")] := by
  refine ⟨?_, ?_, ?_⟩
  · obtain ⟨h1, h2, h3, h4⟩ := sipocVsmSteps_shape
      (processListOr sipoc.process ("Process Step 1")) g1 g2 2 2 100 none none rfl
    rcases e1 : (sipocVsmSteps (processListOr sipoc.process ("Process Step 1"))
        g1 2 100 none).2.2.2.2 with _ | pv1 <;>
      rcases e2 : (sipocVsmSteps (processListOr sipoc.process ("Process Step 1"))
          g2 2 100 none).2.2.2.2 with _ | pv2
    · simp [convertSipocToVsm, vsmShape, vsmStepShape, e1, e2, h1, h2, h3]
    · rw [e1, e2] at h4; simp at h4
    · rw [e1, e2] at h4; simp at h4
    · simp [convertSipocToVsm, vsmShape, vsmStepShape, e1, e2, h1, h2, h3]
  · obtain ⟨h1, h2, h3⟩ := sipocBpmnTasks_shape (processListOr sipoc.process ("New Task"))
      g1 g2 0 0 330 ("StartEvent_SIPOC") ("StartEvent_SIPOC")
    simp [convertSipocToBpmn, bpmnShape, bpmnNodeShape, h1, h2, h3]
  · simp [convertVsmToBpmn, vtf_nodes_map_id]

/-! ## Claim C2: forced left-to-right wire routing -/

/-- C2: every emitted connector path exits the source's right-middle port
and enters the target's left-middle port; with vertical offset above 10 it
has exactly two interior waypoints at the x midpoint of the two ports (one
at the source port y, one at the target port y), otherwise none. -/
theorem claim_C2 (s t : ProcessNode) :
    (bpmnEdgeWaypoints s t).head? = some (bpmnSourcePort s) ∧
    (bpmnEdgeWaypoints s t).getLast? = some (bpmnTargetPort t) ∧
    (10 < |(bpmnSourcePort s).2 - (bpmnTargetPort t).2| →
      interiorPoints (bpmnEdgeWaypoints s t)
        = [(((bpmnSourcePort s).1 + (bpmnTargetPort t).1) / 2, (bpmnSourcePort s).2),
           (((bpmnSourcePort s).1 + (bpmnTargetPort t).1) / 2, (bpmnTargetPort t).2)]) ∧
    (¬ 10 < |(bpmnSourcePort s).2 - (bpmnTargetPort t).2| →
      interiorPoints (bpmnEdgeWaypoints s t) = []) := by
  have hm : (bpmnSourcePort s).1 + ((bpmnTargetPort t).1 - (bpmnSourcePort s).1) / 2
      = ((bpmnSourcePort s).1 + (bpmnTargetPort t).1) / 2 := by ring
  refine ⟨?_, ?_, fun h => ?_, fun h => ?_⟩
  · by_cases h : 10 < |(bpmnSourcePort s).2 - (bpmnTargetPort t).2| <;>
      simp [bpmnEdgeWaypoints, h]
  · simp only [bpmnEdgeWaypoints, List.getLast?_concat]
  · simp [bpmnEdgeWaypoints, interiorPoints, h, hm, List.dropLast_concat]
  · simp [bpmnEdgeWaypoints, interiorPoints, h, List.dropLast_concat]

def cexNodeA : ProcessNode :=
  { id := "a", type := NodeType.task, label := "A", x := 0, y := 0 }

def cexNodeB : ProcessNode :=
  { id := "b", type := NodeType.task, label := "B", x := 200, y := 100 }

/-- C2 witness: tasks at (0,0) and (200,100) have port vertical offset 100,
so the path gets the two elbow waypoints at the port x midpoint. -/
theorem claim_C2_witness :
    interiorPoints (bpmnEdgeWaypoints cexNodeA cexNodeB)
      = [(((bpmnSourcePort cexNodeA).1 + (bpmnTargetPort cexNodeB).1) / 2,
          (bpmnSourcePort cexNodeA).2),
         (((bpmnSourcePort cexNodeA).1 + (bpmnTargetPort cexNodeB).1) / 2,
          (bpmnTargetPort cexNodeB).2)] :=
  (claim_C2 cexNodeA cexNodeB).2.2.1 (by
    have h : (bpmnSourcePort cexNodeA).2 - (bpmnTargetPort cexNodeB).2 = -100 := by
      norm_num [bpmnSourcePort, bpmnTargetPort, cexNodeA, cexNodeB, getNodeDim]
    rw [h, abs_neg, abs_of_nonneg] <;> norm_num)

/-! ## Claim C5: grid snapping during versus at the end of a drag -/

def cexStep : VSMStep :=
  { id := "s", name := "N", role := VSMRole.process, x := 0, y := 0 }

/-- A VSM editor state in the middle of a node drag. -/
def cexDragState : VSMEditorState :=
  { viewState := { x := 0, y := 0, scale := 1 }, isPanning := false
    lastMousePos := (0, 0), draggedStepId := some "s", dragOffset := (0, 0)
    steps := [cexStep] }

/-- The mid-drag pointer-move of the counterexample stores the snapped
position (120, 50) for the dragged step. -/
theorem cexDragSteps :
    (vsmHandleMouseMove 0 0 123 47 cexDragState).steps
      = [{ cexStep with x := 120, y := 50 }] := by
  norm_num [vsmHandleMouseMove, cexDragState, toLocalCoordinates, snapToGrid,
    cexStep, round_eq]

/-- C5 counterexample: during a drag, a pointer-move to model point
(123, 47) stores the SNAPPED position (120, 50) — snapping is applied to
the intermediate position, while the drag is still in progress — and the
subsequent mouse-up changes no position at all (so nothing is snapped "at
the end of the drag"). -/
theorem claim_C5_counterexample :
    toLocalCoordinates 0 0 cexDragState.viewState 123 47 = (123, 47) ∧
    (vsmHandleMouseMove 0 0 123 47 cexDragState).steps
      = [{ cexStep with x := 120, y := 50 }] ∧
    ((120 : ℚ), (50 : ℚ)) ≠ ((123 : ℚ), (47 : ℚ)) ∧
    (vsmHandleMouseUp (vsmHandleMouseMove 0 0 123 47 cexDragState)).steps
      = (vsmHandleMouseMove 0 0 123 47 cexDragState).steps := by
  refine ⟨?_, cexDragSteps, by norm_num [Prod.ext_iff], rfl⟩
  norm_num [toLocalCoordinates, cexDragState, Prod.ext_iff]

/-- C5 as amended: grid snapping is applied to the dragged node's position
on EVERY pointer-move while the drag is in progress (each intermediate
position is already a multiple of the 10-unit grid), and the end of the
drag applies no transformation at all (mouse-up leaves every position
unchanged).  This holds in both SVG editors. -/
theorem claim_C5 :
    (∀ (rl rt cx cy : ℚ) (st : VSMEditorState) (dragId : String) (s : VSMStep),
       st.isPanning = false → st.draggedStepId = some dragId →
       s ∈ (vsmHandleMouseMove rl rt cx cy st).steps → s.id = dragId →
       (∃ m : ℤ, s.x = 10 * m) ∧ (∃ m : ℤ, s.y = 10 * m)) ∧
    (∀ st : VSMEditorState, (vsmHandleMouseUp st).steps = st.steps) ∧
    (∀ (rl rt cx cy : ℚ) (st : CMMNEditorState) (dragId : String) (n : CMMNNode),
       st.isPanning = false → st.draggedNodeId = some dragId →
       n ∈ (cmmnHandleMouseMove rl rt cx cy st).nodes → n.id = dragId →
       (∃ m : ℤ, n.x = 10 * m) ∧ (∃ m : ℤ, n.y = 10 * m)) ∧
    (∀ st : CMMNEditorState, (cmmnHandleMouseUp st).nodes = st.nodes) := by
  refine ⟨?_, fun st => rfl, ?_, fun st => rfl⟩
  · intro rl rt cx cy st dragId s hp hd hmem hsid
    simp only [vsmHandleMouseMove, hp, Bool.false_eq_true, if_false, hd] at hmem
    rcases List.mem_map.mp hmem with ⟨t, ht, rfl⟩
    by_cases hid : t.id = dragId
    · simp only [if_pos hid, snapToGrid]
      exact ⟨⟨_, by ring⟩, ⟨_, by ring⟩⟩
    · rw [if_neg hid] at hsid ⊢
      exact absurd hsid hid
  · intro rl rt cx cy st dragId n hp hd hmem hsid
    simp only [cmmnHandleMouseMove, hp, Bool.false_eq_true, if_false, hd] at hmem
    rcases List.mem_map.mp hmem with ⟨t, ht, rfl⟩
    by_cases hid : t.id = dragId
    · simp only [if_pos hid, snapToGrid]
      exact ⟨⟨_, by ring⟩, ⟨_, by ring⟩⟩
    · rw [if_neg hid] at hsid ⊢
      exact absurd hsid hid

/-- C5 witness: the amended theorem applied to the concrete mid-drag move
of the counterexample state: the stored coordinates are grid multiples. -/
theorem claim_C5_witness :
    (∃ m : ℤ, ({ cexStep with x := 120, y := 50 } : VSMStep).x = 10 * m) ∧
    (∃ m : ℤ, ({ cexStep with x := 120, y := 50 } : VSMStep).y = 10 * m) :=
  claim_C5.1 0 0 123 47 cexDragState ("s") { cexStep with x := 120, y := 50 }
    rfl rfl (by rw [cexDragSteps]; exact List.mem_singleton.mpr rfl) rfl

/-! ## Claim C6: lifetime of the global pointer listeners -/

/-- An idle VSM editor state (no gesture in progress). -/
def cexIdleState : VSMEditorState :=
  { viewState := { x := 0, y := 0, scale := 1 }, isPanning := false
    lastMousePos := (0, 0), draggedStepId := none, dragOffset := (0, 0)
    steps := [cexStep] }

/-- C6 counterexample: with the editor mounted and the interaction state
machine in `Idle`, the code's global mousemove/mouseup listeners ARE
attached (the attaching effect is unconditional), while the claimed policy
("attached only while Panning or DraggingNode") says they are not. -/
theorem claim_C6_counterexample :
    vsmGlobalListenersAttached true cexIdleState = true ∧
    vsmEditorPhase cexIdleState = InteractionPhase.idle ∧
    listenersAttachedSpecModel true (vsmEditorPhase cexIdleState) = false := by
  refine ⟨rfl, rfl, rfl⟩

/-- C6 as amended: the global pointer listeners are attached for the whole
mounted lifetime of the editor — in every interaction phase, including
`Idle` — and are removed exactly on unmount (the effect cleanup, which also
runs on teardown).  Outside `Panning`/`DraggingNode` the attached mousemove
handler is a no-op on the editor state, and mouse-up always ends the
gesture.  Same for both editors. -/
theorem claim_C6 :
    (∀ (mounted : Bool) (st : VSMEditorState),
       vsmGlobalListenersAttached mounted st = mounted) ∧
    (∀ st : VSMEditorState, vsmEditorPhase st = InteractionPhase.idle →
       ∀ rl rt cx cy : ℚ, vsmHandleMouseMove rl rt cx cy st = st) ∧
    (∀ st : VSMEditorState, vsmEditorPhase (vsmHandleMouseUp st) = InteractionPhase.idle) ∧
    (∀ (mounted : Bool) (st : CMMNEditorState),
       cmmnGlobalListenersAttached mounted st = mounted) ∧
    (∀ st : CMMNEditorState, cmmnEditorPhase st = InteractionPhase.idle →
       ∀ rl rt cx cy : ℚ, cmmnHandleMouseMove rl rt cx cy st = st) ∧
    (∀ st : CMMNEditorState, cmmnEditorPhase (cmmnHandleMouseUp st) = InteractionPhase.idle) := by
  refine ⟨fun _ _ => rfl, ?_, ?_, fun _ _ => rfl, ?_, ?_⟩
  · intro st hidle rl rt cx cy
    unfold vsmEditorPhase at hidle
    by_cases hp : st.isPanning
    · simp [hp] at hidle
    · rcases hd : st.draggedStepId with _ | v
      · simp [vsmHandleMouseMove, hp, hd]
      · rw [if_neg hp, hd] at hidle; simp at hidle
  · intro st
    simp [vsmEditorPhase, vsmHandleMouseUp]
  · intro st hidle rl rt cx cy
    unfold cmmnEditorPhase at hidle
    by_cases hp : st.isPanning
    · simp [hp] at hidle
    · rcases hd : st.draggedNodeId with _ | v
      · simp [cmmnHandleMouseMove, hp, hd]
      · rw [if_neg hp, hd] at hidle; simp at hidle
  · intro st
    simp [cmmnEditorPhase, cmmnHandleMouseUp]

/-- C6 witness: the amended theorem at the concrete idle state — the
attached handler leaves it untouched. -/
theorem claim_C6_witness :
    vsmHandleMouseMove 0 0 55 77 cexIdleState = cexIdleState :=
  claim_C6.2.1 cexIdleState rfl 0 0 55 77

/-! ## Claim C7: XML escaping of text content -/

/-- The per-character escape actually applied to node labels. -/
def nodeEscTable (c : Char) : List Char :=
  if c = '&' then ("&amp;").data
  else if c = '<' then ("&lt;").data
  else if c = '>' then ("&gt;").data
  else [c]

/-- The per-character escape actually applied to edge labels. -/
def edgeEscTable (c : Char) : List Char :=
  if c = '"' then ("&quot;").data else [c]

theorem replaceChar_cons (c : Char) (r : List Char) (x : Char) (l : List Char) :
    replaceChar c r (x :: l) = (if x = c then r else [x]) ++ replaceChar c r l := by
  simp [replaceChar]

theorem replaceChar_append (c : Char) (r : List Char) (l₁ l₂ : List Char) :
    replaceChar c r (l₁ ++ l₂) = replaceChar c r l₁ ++ replaceChar c r l₂ := by
  simp [replaceChar]

theorem mem_replaceChar {a c : Char} {r l : List Char}
    (h : a ∈ replaceChar c r l) : a ∈ r ∨ (a ∈ l ∧ a ≠ c) := by
  induction l with
  | nil => simp [replaceChar] at h
  | cons x xs ih =>
    rw [replaceChar_cons] at h
    rcases List.mem_append.mp h with h1 | h1
    · by_cases hx : x = c
      · rw [if_pos hx] at h1
        exact Or.inl h1
      · rw [if_neg hx] at h1
        rcases List.mem_singleton.mp h1 with rfl
        exact Or.inr ⟨List.mem_cons_self _ _, hx⟩
    · rcases ih h1 with h2 | ⟨h2, h3⟩
      · exact Or.inl h2
      · exact Or.inr ⟨List.mem_cons_of_mem _ h2, h3⟩

theorem escapeNodeLabelChars_eq_table (l : List Char) :
    escapeNodeLabelChars l = (l.map nodeEscTable).flatten := by
  induction l with
  | nil => rfl
  | cons x xs ih =>
    have hstep : escapeNodeLabelChars (x :: xs)
        = escapeNodeLabelChars [x] ++ escapeNodeLabelChars xs := by
      show escapeNodeLabelChars ([x] ++ xs) = _
      simp only [escapeNodeLabelChars, replaceChar_append]
    rw [hstep, ih, List.map_cons, List.flatten_cons]
    refine congrArg (· ++ _) ?_
    by_cases h1 : x = '&'
    · subst h1; decide
    · by_cases h2 : x = '<'
      · subst h2; decide
      · by_cases h3 : x = '>'
        · subst h3; decide
        · simp [escapeNodeLabelChars, replaceChar, nodeEscTable, h1, h2, h3]

/-- C7 counterexample: a double-quote in a node label survives the node
sanitizer verbatim (the emitted `name="…"` attribute keeps the raw `"`),
and `<` / `>` in an edge label survive the edge sanitizer verbatim — so not
every reserved character occurrence in text content is escaped. -/
theorem claim_C7_counterexample :
    escapeNodeLabel ("a\"b") = ("a\"b") ∧
    ('"' ∈ (escapeNodeLabel ("a\"b")).data) ∧
    escapeEdgeLabel ("<>") = ("<>") ∧
    ('<' ∈ (escapeEdgeLabel ("<>")).data) := by
  refine ⟨by decide, by decide, by decide, by decide⟩

/-- C7 as amended: node labels are escaped per character with `&` → `&amp;`,
`<` → `&lt;`, `>` → `&gt;` — so no raw `<` or `>` survives — but `"` is NOT
escaped in node labels; edge labels are escaped per character with only
`"` → `&quot;` — so no raw `"` survives there, but `&`, `<`, `>` are NOT
escaped in edge labels. -/
theorem claim_C7 (s : String) :
    ('<' ∉ (escapeNodeLabel s).data) ∧
    ('>' ∉ (escapeNodeLabel s).data) ∧
    ('"' ∉ (escapeEdgeLabel s).data) ∧
    (escapeNodeLabel s).data = (s.data.map nodeEscTable).flatten ∧
    (escapeEdgeLabel s).data = (s.data.map edgeEscTable).flatten := by
  refine ⟨?_, ?_, ?_, escapeNodeLabelChars_eq_table s.data, rfl⟩
  · intro h
    rcases mem_replaceChar h with h1 | ⟨h2, -⟩
    · exact absurd h1 (by decide)
    · rcases mem_replaceChar h2 with h3 | ⟨-, h4⟩
      · exact absurd h3 (by decide)
      · exact h4 rfl
  · intro h
    rcases mem_replaceChar h with h1 | ⟨-, h2⟩
    · exact absurd h1 (by decide)
    · exact h2 rfl
  · intro h
    rcases mem_replaceChar h with h1 | ⟨-, h2⟩
    · exact absurd h1 (by decide)
    · exact h2 rfl

/-! ## Claim C8: invalid edges are silently dropped everywhere -/

/-- C8: an edge whose source or target id resolves to no node contributes
no sequence-flow element and no diagram-interchange record to the wire
export, no rendered connector in the VSM editor, and no rendered edge in
the CMMN editor; all four code paths are total functions (nothing is
thrown), they simply skip the edge. -/
theorem claim_C8 :
    (∀ (d : ProcessMap) (e : ProcessEdge),
       ((∀ n ∈ d.nodes, n.id ≠ e.source) ∨ (∀ n ∈ d.nodes, n.id ≠ e.target)) →
       e ∉ bpmnEmittedSequenceFlows d ∧ bpmnDiRecordForEdge d e = none) ∧
    (∀ (v : VSMData) (c : VSMConnector),
       ((∀ s ∈ v.steps, s.id ≠ c.source) ∨ (∀ s ∈ v.steps, s.id ≠ c.target)) →
       vsmRenderedConnector v c = none) ∧
    (∀ (m : CMMNModel) (e : CMMNEdge),
       ((∀ n ∈ m.nodes, n.id ≠ e.source) ∨ (∀ n ∈ m.nodes, n.id ≠ e.target)) →
       cmmnRenderedEdge m e = none) := by
  refine ⟨?_, ?_, ?_⟩
  · intro d e hbad
    constructor
    · intro hmem
      rw [bpmnEmittedSequenceFlows, List.mem_filter] at hmem
      obtain ⟨-, hp⟩ := hmem
      rcases Bool.and_eq_true _ _ |>.mp hp with ⟨h1, h2⟩
      rcases hbad with hb | hb
      · obtain ⟨n, hn, hid⟩ := List.any_eq_true.mp h1
        exact hb n hn (by simpa using hid)
      · obtain ⟨n, hn, hid⟩ := List.any_eq_true.mp h2
        exact hb n hn (by simpa using hid)
    · rcases hfs : d.nodes.find? (fun n => n.id == e.source) with _ | n1 <;>
        rcases hft : d.nodes.find? (fun n => n.id == e.target) with _ | n2 <;>
          simp only [bpmnDiRecordForEdge, hfs, hft]
      rcases hbad with hb | hb
      · exact absurd (by simpa using List.find?_some hfs)
          (hb n1 (List.mem_of_find?_eq_some hfs))
      · exact absurd (by simpa using List.find?_some hft)
          (hb n2 (List.mem_of_find?_eq_some hft))
  · intro v c hbad
    rcases hfs : v.steps.find? (fun s => s.id == c.source) with _ | s1 <;>
      rcases hft : v.steps.find? (fun s => s.id == c.target) with _ | s2 <;>
        simp only [vsmRenderedConnector, hfs, hft]
    rcases hbad with hb | hb
    · exact absurd (by simpa using List.find?_some hfs)
        (hb s1 (List.mem_of_find?_eq_some hfs))
    · exact absurd (by simpa using List.find?_some hft)
        (hb s2 (List.mem_of_find?_eq_some hft))
  · intro m e hbad
    rcases hfs : m.nodes.find? (fun n => n.id == e.source) with _ | n1 <;>
      rcases hft : m.nodes.find? (fun n => n.id == e.target) with _ | n2 <;>
        simp only [cmmnRenderedEdge, hfs, hft]
    rcases hbad with hb | hb
    · exact absurd (by simpa using List.find?_some hfs)
        (hb n1 (List.mem_of_find?_eq_some hfs))
    · exact absurd (by simpa using List.find?_some hft)
        (hb n2 (List.mem_of_find?_eq_some hft))

def cexBadEdge : ProcessEdge := { id := "e1", source := "n1", target := "ghost" }

def cexBadMap : ProcessMap :=
  { nodes := [{ id := "n1", type := NodeType.task, label := "T", x := 0, y := 0 }]
    edges := [cexBadEdge] }

def cexBadConn : VSMConnector :=
  { id := "c1", source := "ghost", target := "s", type := VSMConnType.push }

def cexBadVsm : VSMData :=
  { steps := [cexStep], connectors := [cexBadConn]
    totalLeadTime := 0, totalProcessTime := 0, efficiency := 0 }

def cexBadCmmnEdge : CMMNEdge :=
  { id := "d1", source := "k1", target := "ghost", type := CMMNEdgeType.dependency }

def cexBadCmmn : CMMNModel :=
  { nodes := [{ id := "k1", type := CMMNNodeType.task, label := "K", x := 0, y := 0 }]
    edges := [cexBadCmmnEdge] }

/-- C8 witness: a dangling edge in each diagram family is dropped by every
consumer. -/
theorem claim_C8_witness :
    (cexBadEdge ∉ bpmnEmittedSequenceFlows cexBadMap ∧
      bpmnDiRecordForEdge cexBadMap cexBadEdge = none) ∧
    vsmRenderedConnector cexBadVsm cexBadConn = none ∧
    cmmnRenderedEdge cexBadCmmn cexBadCmmnEdge = none :=
  ⟨claim_C8.1 cexBadMap cexBadEdge (Or.inr (by decide)),
   claim_C8.2.1 cexBadVsm cexBadConn (Or.inl (by decide)),
   claim_C8.2.2 cexBadCmmn cexBadCmmnEdge (Or.inr (by decide))⟩

/-! ## Claim C9: fit-to-content on an empty diagram -/

/-- C9 counterexample: the CMMN editor's fit-to-content returns early on a
diagram with zero nodes, leaving a previously moved/zoomed viewport as it
is — it does NOT reset to the identity viewport. -/
theorem claim_C9_counterexample :
    cmmnHandleFitView [] 100 100 { x := 5, y := 6, scale := 2 }
      = { x := 5, y := 6, scale := 2 } ∧
    ({ x := 5, y := 6, scale := 2 } : ViewState) ≠ { x := 0, y := 0, scale := 1 } := by
  refine ⟨rfl, by simp [ViewState.mk.injEq]⟩

/-- C9 as amended: with zero nodes, the VSM editor's fit-to-content resets
the viewport to the identity viewport, while the CMMN editor's
fit-to-content is a no-op that keeps the current viewport (only when the
prior viewport happens to be the identity does it end up identity). -/
theorem claim_C9 (clientW clientH : ℚ) (vp : ViewState) :
    vsmHandleFitView [] clientW clientH = { x := 0, y := 0, scale := 1 } ∧
    cmmnHandleFitView [] clientW clientH vp = vp :=
  ⟨rfl, rfl⟩

/-! ## Claim C10: the Process Health score -/

theorem baseMetrics_name_ne (d : DashboardData) (m : MetricData)
    (hm : m ∈ baseMetrics d) : m.name ≠ ("Process Health") := by
  intro hname
  simp only [baseMetrics, List.mem_append] at hm
  rcases hm with h | h
  · split at h
    · split at h
      · simp at h
      · rcases List.mem_append.mp h with h2 | h2
        · simp only [List.mem_cons, List.not_mem_nil, or_false] at h2
          rcases h2 with h3 | h3 <;> (rw [h3] at hname; simp [mkMetric] at hname)
        · split at h2
          · split at h2
            · simp at h2
            · rw [List.mem_singleton.mp h2] at hname
              simp [mkMetric] at hname
          · simp at h2
    · simp at h
  · split at h
    · split at h
      · simp at h
      · simp only [List.mem_cons, List.not_mem_nil, or_false] at h
        rcases h with h3 | h3 <;> (rw [h3] at hname; simp [mkMetric] at hname)
    · simp at h

/-- C10: every derived Process Health metric has value at most 100 (the
code clamps with `Math.min(100, …)`), the underlying weighted blend can
exceed 100 (e.g. full efficiency with a tiny takt ratio), and the division
is guarded: a zero takt time is replaced by 1 before dividing, and a zero
clamped takt ratio is replaced by 1 before dividing. -/
theorem claim_C10 :
    (∀ (d : DashboardData) (m : MetricData), m ∈ calculateDynamicMetrics d →
       m.name = ("Process Health") → m.value ≤ 100) ∧
    (∃ eff cycle takt : ℚ, 100 < unclampedHealth eff cycle takt) ∧
    (∀ cycle : ℚ, clampedTaktQuot cycle 0 = min 1.2 (cycle * 60 / 1)) ∧
    (∀ eff cycle takt : ℚ, clampedTaktQuot cycle takt = 0 →
       unclampedHealth eff cycle takt = eff * 0.4 + 100 * (1 / 1) * 0.6) := by
  refine ⟨?_, ⟨100, 1, 6000, ?_⟩, ?_, ?_⟩
  · intro d m hm hname
    rw [calculateDynamicMetrics] at hm
    split at hm
    · rcases List.mem_cons.mp hm with rfl | hm2
      · simp only [healthMetric, mkMetric, healthValue]
        exact_mod_cast min_le_left (100 : ℤ) _
      · exact absurd hname (baseMetrics_name_ne _ _ hm2)
    · exact absurd hname (baseMetrics_name_ne _ _ hm)
  · have hq : clampedTaktQuot 1 6000 = 1 / 100 := by
      rw [clampedTaktQuot, jsOr, if_neg (by norm_num)]
      rw [min_def, if_neg (by norm_num)]
      norm_num
    rw [unclampedHealth, hq, jsOr, if_neg (by norm_num)]
    norm_num
  · intro cycle
    simp [clampedTaktQuot, jsOr]
  · intro eff cycle takt h
    rw [unclampedHealth, h, jsOr, if_pos rfl]

/-- A dashboard fixture whose derived metrics include Process Health. -/
def cexDash : DashboardData := { vsm := some cexVsm, processMap := none }

/-- C10 witness: the fixture's derived Process Health value is ≤ 100. -/
theorem claim_C10_witness :
    (healthMetric (baseMetrics cexDash)).value ≤ 100 := by
  have hlen : 2 ≤ (baseMetrics cexDash).length := by
    simp [baseMetrics, cexDash, cexVsm]
  have hmem : healthMetric (baseMetrics cexDash) ∈ calculateDynamicMetrics cexDash := by
    rw [calculateDynamicMetrics, if_pos hlen]
    exact List.mem_cons_self _ _
  exact claim_C10.1 cexDash _ hmem rfl

/-! ## Additional concrete witnesses -/

/-- C1 witness: the fixture with two process steps yields 2 + 2 nodes and
2 + 1 edges. -/
theorem claim_C1_witness :
    (convertVsmToBpmn cexVsm).nodes.length
        = (cexVsm.steps.filter fun s => decide (s.role = VSMRole.process)).length + 2 ∧
    (convertVsmToBpmn cexVsm).edges.length
        = (cexVsm.steps.filter fun s => decide (s.role = VSMRole.process)).length + 1 :=
  ⟨(claim_C1 cexVsm).1, (claim_C1 cexVsm).2.1⟩

/-- C4 witness: the id-erased shapes agree for the concrete generators of
the counterexample. -/
theorem claim_C4_witness :
    vsmShape (convertSipocToVsm cexGen1 cexSipoc)
        = vsmShape (convertSipocToVsm cexGen2 cexSipoc) ∧
    bpmnShape (convertSipocToBpmn cexGen1 cexSipoc)
        = bpmnShape (convertSipocToBpmn cexGen2 cexSipoc) :=
  ⟨(claim_C4 cexGen1 cexGen2 cexSipoc cexVsm).1,
   (claim_C4 cexGen1 cexGen2 cexSipoc cexVsm).2.1⟩

/-- C7 witness: the sanitizers evaluated at a concrete label containing
every reserved character. -/
theorem claim_C7_witness :
    ('<' ∉ (escapeNodeLabel ("a&<>\"b")).data) ∧
    ('"' ∉ (escapeEdgeLabel ("a&<>\"b")).data) :=
  ⟨(claim_C7 ("a&<>\"b")).1, (claim_C7 ("a&<>\"b")).2.2.1⟩

/-- C9 witness: the two fit-to-content behaviours at a concrete non-identity
viewport. -/
theorem claim_C9_witness :
    vsmHandleFitView [] 640 480 = { x := 0, y := 0, scale := 1 } ∧
    cmmnHandleFitView [] 640 480 { x := 5, y := 6, scale := 2 }
      = { x := 5, y := 6, scale := 2 } :=
  claim_C9 640 480 { x := 5, y := 6, scale := 2 }

end ProcessM8
